import Mathlib

/-!
# Remote Workspace Operations Server — verification development

A shallow embedding of the Remote Workspace Operations Server implemented
in `src/.devcontainer/ws-server.js`: connection authentication, the JSON
action-based request/response protocol, the path-safety validator, the
file/git/exec operation handlers and the directory-listing routine.  Each
definition's doc comment cites the source lines it embeds.

Strings are manipulated through their underlying character lists so that
every definition is executable by the kernel.  JSON objects are embedded
as structures whose optional fields model keys that the server may omit
(`JSON.stringify` drops `undefined` values).  The external world — the
filesystem, child processes, and the JWT signature check performed by the
`jsonwebtoken` library — is passed in explicitly (a filesystem state, a
subprocess oracle, a token-verification oracle), and the Node error
messages raised by those externals are abbreviated to fixed strings where
the code only forwards `error.message`.
-/

namespace WsServer

/-- Character-list version of `filePath.replace(/\\/g, '/')`
(ws-server.js:84). -/
def normSlashesL (l : List Char) : List Char :=
  l.map (fun c => if c = '\\' then '/' else c)

/-- True when `sub` occurs as a contiguous run inside `l`: the model of
JavaScript `String.includes`. -/
def containsSubL (sub l : List Char) : Bool :=
  l.tails.any (fun t => sub.isPrefixOf t)

/-- The test `/^[A-Za-z]:/` of ws-server.js:85: a leading ASCII letter
followed by a colon. -/
def driveLetterL (l : List Char) : Bool :=
  match l with
  | a :: b :: _ => a.isAlpha && b = ':'
  | _ => false

/-- Split a character list on a separator character; the model of
JavaScript `String.split` with a single-character separator. -/
def splitOnChar (sep : Char) : List Char → List (List Char)
  | [] => [[]]
  | x :: xs =>
    let r := splitOnChar sep xs
    if x = sep then [] :: r
    else
      match r with
      | [] => [[x]]
      | h :: t => (x :: h) :: t

/-- Join segments with `/` separators (inverse direction of `splitOnChar`). -/
def joinSegsL : List (List Char) → List Char
  | [] => []
  | [s] => s
  | s :: rest => s ++ '/' :: joinSegsL rest

/-- Whitespace characters recognised by the model of `String.trim` and of
the `\s` regex class (the common ASCII ones). -/
def isWsChar (c : Char) : Bool :=
  c = ' ' || c = '\n' || c = '\t' || c = '\r'

/-- The model of JavaScript `String.trim`: strip whitespace from both
ends. -/
def trimL (l : List Char) : List Char :=
  ((l.dropWhile isWsChar).reverse.dropWhile isWsChar).reverse

/-- JavaScript `a || b` on strings: `b` when `a` is empty (falsy), else
`a`. -/
def jsOr (a b : String) : String :=
  if a = "" then b else a

/-- Escape of `"` and `\` as performed by `JSON.stringify` on a string
(control-character escapes are not modelled; the git handlers only pass
ordinary path and message text through this). -/
def jsonEscape : List Char → List Char
  | [] => []
  | c :: rest =>
    (if c = '"' then ['\\', '"'] else if c = '\\' then ['\\', '\\'] else [c]) ++ jsonEscape rest

/-- The model of `JSON.stringify` applied to a string (ws-server.js:467,
494): the escaped text wrapped in double quotes. -/
def jsonQuote (s : String) : String :=
  String.mk ('"' :: (jsonEscape s.data ++ ['"']))

/-- The Path Safety Validator `isPathSafe` (ws-server.js:82-90): reject
the empty string; normalize backslashes to forward slashes; reject a
leading `/` or a drive-letter prefix; reject `../`, `/..` or exactly
`..`; reject `.git/` prefixes or exactly `.git`; reject `node_modules/`
prefixes or exactly `node_modules`; accept everything else.  Absent
(`undefined`) input is handled by the callers, which never reach the
validator without a string (`data.path &&` at line 178; explicit presence
checks at 306-307). -/
def isPathSafe (filePath : String) : Bool :=
  if filePath = "" then false
  else if ['/'].isPrefixOf (normSlashesL filePath.data) then false
  else if driveLetterL (normSlashesL filePath.data) then false
  else if containsSubL ['.', '.', '/'] (normSlashesL filePath.data) then false
  else if containsSubL ['/', '.', '.'] (normSlashesL filePath.data) then false
  else if normSlashesL filePath.data = ['.', '.'] then false
  else if (".git/".data).isPrefixOf (normSlashesL filePath.data) then false
  else if normSlashesL filePath.data = ".git".data then false
  else if ("node_modules/".data).isPrefixOf (normSlashesL filePath.data) then false
  else if normSlashesL filePath.data = "node_modules".data then false
  else true

/-- The standard base64 alphabet, in index order. -/
def b64Alphabet : List Char :=
  ['A', 'B', 'C', 'D', 'E', 'F', 'G', 'H', 'I', 'J', 'K', 'L', 'M',
   'N', 'O', 'P', 'Q', 'R', 'S', 'T', 'U', 'V', 'W', 'X', 'Y', 'Z',
   'a', 'b', 'c', 'd', 'e', 'f', 'g', 'h', 'i', 'j', 'k', 'l', 'm',
   'n', 'o', 'p', 'q', 'r', 's', 't', 'u', 'v', 'w', 'x', 'y', 'z',
   '0', '1', '2', '3', '4', '5', '6', '7', '8', '9', '+', '/']

/-- Character for a sextet value. -/
def b64Char (n : Nat) : Char := b64Alphabet.getD n '='

/-- Sextet value of a base64 character. -/
def b64Index (c : Char) : Nat := b64Alphabet.findIdx (fun x => x == c)

/-- Base64-encode a byte list: the model of `buffer.toString('base64')`
(ws-server.js:196). -/
def encB64 : List Nat → List Char
  | [] => []
  | [a] => [b64Char (a / 4), b64Char (a % 4 * 16), '=', '=']
  | [a, b] => [b64Char (a / 4), b64Char (a % 4 * 16 + b / 16), b64Char (b % 16 * 4), '=']
  | a :: b :: c :: rest =>
    b64Char (a / 4) :: b64Char (a % 4 * 16 + b / 16) ::
      b64Char (b % 16 * 4 + c / 64) :: b64Char (c % 64) :: encB64 rest

/-- Base64-decode a character list: the model of
`Buffer.from(content, 'base64')` (ws-server.js:224) on well-formed input. -/
def decB64 : List Char → List Nat
  | c1 :: c2 :: c3 :: c4 :: rest =>
    if c4 = '=' then
      if c3 = '=' then [b64Index c1 * 4 + b64Index c2 / 16]
      else [b64Index c1 * 4 + b64Index c2 / 16, b64Index c2 % 16 * 16 + b64Index c3 / 4]
    else
      (b64Index c1 * 4 + b64Index c2 / 16) ::
        (b64Index c2 % 16 * 16 + b64Index c3 / 4) ::
        (b64Index c3 % 4 * 64 + b64Index c4) :: decB64 rest
  | _ => []

theorem b64Index_b64Char : ∀ n, n < 64 → b64Index (b64Char n) = n := by decide

theorem b64Char_ne_pad : ∀ n, n < 64 → b64Char n ≠ '=' := by decide

/-- Decoding inverts encoding on byte lists. -/
theorem decB64_encB64 : ∀ l : List Nat, (∀ b ∈ l, b < 256) → decB64 (encB64 l) = l := by
  intro l
  induction l using encB64.induct with
  | case1 => intro _; rfl
  | case2 a =>
    intro h
    have ha : a < 256 := h a (by simp)
    simp [encB64, decB64, b64Index_b64Char _ (show a / 4 < 64 by omega),
      b64Index_b64Char _ (show a % 4 * 16 < 64 by omega)]
    omega
  | case3 a b =>
    intro h
    have ha : a < 256 := h a (by simp)
    have hb : b < 256 := h b (by simp)
    have hne : (b64Char (b % 16 * 4) = '=') ↔ False :=
      iff_false_intro (b64Char_ne_pad _ (by omega))
    simp [encB64, decB64, hne, b64Index_b64Char _ (show a / 4 < 64 by omega),
      b64Index_b64Char _ (show a % 4 * 16 + b / 16 < 64 by omega),
      b64Index_b64Char _ (show b % 16 * 4 < 64 by omega)]
    omega
  | case4 a b c rest ih =>
    intro h
    have ha : a < 256 := h a (by simp)
    have hb : b < 256 := h b (by simp)
    have hc : c < 256 := h c (by simp)
    have hne : (b64Char (c % 64) = '=') ↔ False :=
      iff_false_intro (b64Char_ne_pad _ (by omega))
    have hrest : decB64 (encB64 rest) = rest := ih (fun x hx => h x (by simp [hx]))
    simp [encB64, decB64, hne, hrest, b64Index_b64Char _ (show a / 4 < 64 by omega),
      b64Index_b64Char _ (show a % 4 * 16 + b / 16 < 64 by omega),
      b64Index_b64Char _ (show b % 16 * 4 + c / 64 < 64 by omega),
      b64Index_b64Char _ (show c % 64 < 64 by omega)]
    omega

/-- A node of the working directory tree as seen by `listDirectory`: a
file, or a directory with its children in directory-entry order (the
order `fs.readdir` reports). -/
inductive FsTree where
  | file (name : String)
  | dir (name : String) (children : List FsTree)
deriving Repr

/-- One entry of a `list` response (ws-server.js:106-118): `name`, `path`
relative to the listing root, `isDirectory`. -/
structure Entry where
  name : String
  path : String
  isDirectory : Bool
deriving DecidableEq, Repr

/-- One parsed change record of a `git-status` response
(ws-server.js:434-443): `{ file, status, type }`. -/
structure Change where
  file : List Char
  status : List Char
  type : String
deriving DecidableEq, Repr

/-- A decoded inbound message (`const data = JSON.parse(messageStr)`,
ws-server.js:168): the `action` discriminator plus the action-specific
fields, absent fields being `none`. -/
structure Request where
  action : String
  path : Option String := none
  oldPath : Option String := none
  newPath : Option String := none
  content : Option (List Char) := none
  encoding : Option String := none
  command : Option String := none
  message : Option String := none
  file : Option String := none

/-- The `files` key of a response: entry records for `list`, raw porcelain
lines for `gitStatus`. -/
inductive FilesField where
  | entries (es : List Entry)
  | lines (ls : List (List Char))
deriving DecidableEq, Repr

/-- The `changes` key of a response: a count for `gitStatus`, parsed
records for `git-status`. -/
inductive ChangesField where
  | count (n : Nat)
  | records (cs : List Change)
deriving DecidableEq, Repr

/-- An outbound JSON object (`ws.send(JSON.stringify(...))`).  Every key
the server ever emits is a field here; `none` models an absent key
(`JSON.stringify` drops `undefined` values — in particular the pong reply
of ws-server.js:173 carries only `action`). -/
structure Response where
  action : String
  success : Option Bool := none
  path : Option String := none
  oldPath : Option String := none
  newPath : Option String := none
  content : Option (List Char) := none
  encoding : Option String := none
  error : Option String := none
  files : Option FilesField := none
  stdout : Option String := none
  stderr : Option String := none
  changes : Option ChangesField := none
  file : Option String := none
  diff : Option String := none
  message : Option String := none
  output : Option String := none
  branch : Option String := none
  command : Option String := none
deriving DecidableEq, Repr

/-- External side effects a handler can perform, recorded as a trace. -/
inductive Effect where
  | fsWrite (path : String)
  | fsMkdir (path : String)
  | fsDelete (path : String)
  | fsRename (oldPath newPath : String)
  | fsTouch (path : String)
  | spawn (cmd : String)
  | closeConn
deriving DecidableEq, Repr

/-- The state of the working directory: file contents by path, the set of
directories (for `fs.stat`), and the tree seen by `listDirectory`. -/
structure Fs where
  files : List (String × List Nat) := []
  dirs : List String := []
  tree : List FsTree := []

/-- The subprocess oracle: the outcome of `execAsync(cmd)` — a
`(stdout, stderr)` pair on success, the thrown `error.message` on
failure. -/
structure Env where
  run : String → Except String (String × String)

/-- The skip rule of `listDirectory` (ws-server.js:99-100): skip
dot-prefixed names unless the name is exactly `.astro` or
`.devcontainer` (whether the entry is a file or a directory), and always
skip `node_modules`, `dist` and `.git`. -/
def skipEntry (name : String) : Bool :=
  (['.'].isPrefixOf name.data && !(name = ".astro") && !(name = ".devcontainer"))
    || name = "node_modules" || name = "dist" || name = ".git"

/-- The relative path of an entry (ws-server.js:102):
`basePath ? basePath + '/' + name : name`. -/
def joinPath (basePath name : String) : String :=
  if basePath = "" then name else basePath ++ "/" ++ name

/-- The recursive walk of `listDirectory` (ws-server.js:93-125) over a
directory tree: entries in directory-entry order; a directory's own
record is pushed immediately before its recursively listed children. -/
def listTreeL : List FsTree → String → List Entry
  | [], _ => []
  | FsTree.file n :: rest, basePath =>
    (if skipEntry n then [] else [⟨n, joinPath basePath n, false⟩]) ++ listTreeL rest basePath
  | FsTree.dir n cs :: rest, basePath =>
    (if skipEntry n then []
     else ⟨n, joinPath basePath n, true⟩ :: listTreeL cs (joinPath basePath n))
      ++ listTreeL rest basePath
termination_by ts _ => sizeOf ts
decreasing_by all_goals (simp_wf; try omega)

/-- Resolve a list of path segments against the directory tree, returning
the children of the addressed directory, or `none` when it does not exist
(`fs.readdir` then throws and `listDirectory` returns the empty list,
ws-server.js:121-124). -/
def lookupTree : List FsTree → List String → Option (List FsTree)
  | ts, [] => some ts
  | ts, s :: rest =>
    match ts.findSome? (fun t =>
      match t with
      | FsTree.dir n cs => if n = s then some cs else none
      | FsTree.file _ => none) with
    | some cs => lookupTree cs rest
    | none => none

/-- Split a request path into tree segments.  `"."` and `""` address the
working-directory root (`data.path === '.' ? process.cwd() : path.join(process.cwd(), data.path)`,
ws-server.js:261, and `path.join(cwd, '') = cwd`). -/
def pathSegments (p : String) : List String :=
  if p = "." ∨ p = "" then [] else (splitOnChar '/' p.data).map (fun l => String.mk l)

/-- The model of Node's `path.dirname` for the relative paths this server
handles: everything before the last `/`, or `"."` when there is no slash
(ws-server.js:220, 312, 335). -/
def parentDir (p : String) : String :=
  match (splitOnChar '/' p.data).dropLast with
  | [] => "."
  | segs => String.mk (joinSegsL segs)

/-- Store a file's bytes at a path (overwrite semantics of `fs.writeFile`). -/
def setFile (fs : Fs) (p : String) (bytes : List Nat) : Fs :=
  { fs with files := (p, bytes) :: fs.files }

/-- Remove a file's entry at a path. -/
def removeFile (fs : Fs) (p : String) : Fs :=
  { fs with files := fs.files.filter (fun e => !(e.1 == p)) }

/-- The type of a handler's outcome: at most one Response, the updated
filesystem, and the trace of external effects. -/
abbrev HandlerOut := Option Response × Fs × List Effect

/-- Abbreviation of the `ENOENT: no such file or directory, ...` message
Node raises for a missing target (the code only forwards
`error.message`). -/
def enoentErr : String := "ENOENT: no such file or directory"

/-- Abbreviation of the `TypeError` message Node raises when a path
argument is `undefined`. -/
def pathTypeErr : String := "The path argument must be of type string"

/-- Abbreviation of the `TypeError` message Node raises when the write
content is `undefined`. -/
def contentTypeErr : String := "The data argument must be of type string"

/-- The `TypeError` message raised by `command.split` when `data.command`
is absent (ws-server.js:387-389). -/
def undefinedSplitErr : String := "Cannot read properties of undefined (reading 'split')"

/-- The Tailwind rebuild-trigger extensions of ws-server.js:233 and 340. -/
def tailwindTriggerExtensions : List String :=
  [".astro", ".tsx", ".jsx", ".html", ".mdx", ".md", ".vue", ".svelte"]

/-- The check `tailwindTriggerExtensions.some(ext => data.path.endsWith(ext))`
(ws-server.js:234, 341). -/
def hasTriggerExt (p : String) : Bool :=
  tailwindTriggerExtensions.any (fun e => e.data.isSuffixOf p.data)

/-- The touch of `src/styles/global.css` attempted after a write/create of
a trigger-extension file (ws-server.js:235-241, 342-348); a missing
trigger file is tolerated, so the attempt never fails the operation. -/
def triggerTouch (p : String) : List Effect :=
  if hasTriggerExt p then [Effect.fsTouch "src/styles/global.css"] else []

/-- JavaScript `data.encoding || 'utf8'` (ws-server.js:204). -/
def encodingEcho (o : Option String) : String :=
  match o with
  | some s => if s = "" then "utf8" else s
  | none => "utf8"

/-- The `read` case (ws-server.js:191-216): load the file, base64-encode
when `encoding === 'base64'`, else return the text (bytes are surfaced as
their code points in the text model); echo `data.encoding || 'utf8'`;
failures (missing file, absent path) become a failure Response. -/
def handleRead (q : Request) (fs : Fs) : HandlerOut :=
  match q.path with
  | none => (some { action := "read", success := some false, error := some pathTypeErr }, fs, [])
  | some p =>
    match fs.files.lookup p with
    | none =>
      (some { action := "read", path := some p, success := some false,
              error := some enoentErr }, fs, [])
    | some bytes =>
      if q.encoding.getD "" = "base64" then
        (some { action := "read", path := some p, content := some (encB64 bytes),
                encoding := some (encodingEcho q.encoding), success := some true }, fs, [])
      else
        (some { action := "read", path := some p, content := some (bytes.map Char.ofNat),
                encoding := some (encodingEcho q.encoding), success := some true }, fs, [])

/-- The `write` case (ws-server.js:218-257): ensure the parent directory,
store the content (decoding base64 when `encoding === 'base64'`, else
utf8), attempt the Tailwind trigger touch, and answer
`{ action, path, success: true }`; an absent content or empty path fails
after the mkdir. -/
def handleWrite (q : Request) (fs : Fs) : HandlerOut :=
  match q.path with
  | none => (some { action := "write", success := some false, error := some pathTypeErr }, fs, [])
  | some p =>
    match q.content with
    | none =>
      (some { action := "write", path := some p, success := some false,
              error := some contentTypeErr }, fs, [Effect.fsMkdir (parentDir p)])
    | some raw =>
      if p = "" then
        (some { action := "write", path := some p, success := some false,
                error := some enoentErr }, fs, [Effect.fsMkdir (parentDir p)])
      else
        let bytes := if q.encoding.getD "" = "base64" then decB64 raw else raw.map Char.toNat
        (some { action := "write", path := some p, success := some true },
          setFile fs p bytes,
          Effect.fsMkdir (parentDir p) :: Effect.fsWrite p :: triggerTouch p)

/-- The `create` case (ws-server.js:333-364): ensure the parent directory,
write `data.content || ''` as utf8 (no base64 branch), attempt the
trigger touch, and answer `{ action, path, success: true }`. -/
def handleCreate (q : Request) (fs : Fs) : HandlerOut :=
  match q.path with
  | none => (some { action := "create", success := some false, error := some pathTypeErr }, fs, [])
  | some p =>
    if p = "" then
      (some { action := "create", path := some p, success := some false,
              error := some enoentErr }, fs, [Effect.fsMkdir (parentDir p)])
    else
      (some { action := "create", path := some p, success := some true },
        setFile fs p ((q.content.getD []).map Char.toNat),
        Effect.fsMkdir (parentDir p) :: Effect.fsWrite p :: triggerTouch p)

/-- The `list` case (ws-server.js:259-278): recursively list the target
(root for `'.'`); a missing directory makes `listDirectory` log and
return `[]` while the Response still has `success: true`; an absent path
makes `path.join` throw, answered as a failure. -/
def handleList (q : Request) (fs : Fs) : HandlerOut :=
  match q.path with
  | none => (some { action := "list", success := some false, error := some pathTypeErr }, fs, [])
  | some p =>
    let entries := match lookupTree fs.tree (pathSegments p) with
      | none => []
      | some ts => listTreeL ts (if p = "." then "" else p)
    (some { action := "list", path := some p, files := some (FilesField.entries entries),
            success := some true }, fs, [])

/-- The `delete` case (ws-server.js:280-302): `fs.stat` the target (a
missing target throws `ENOENT`), remove recursively for a directory,
unlink for a file. -/
def handleDelete (q : Request) (fs : Fs) : HandlerOut :=
  match q.path with
  | none => (some { action := "delete", success := some false, error := some pathTypeErr }, fs, [])
  | some p =>
    if (fs.files.lookup p).isSome then
      (some { action := "delete", path := some p, success := some true },
        removeFile fs p, [Effect.fsDelete p])
    else if fs.dirs.contains p then
      (some { action := "delete", path := some p, success := some true },
        fs, [Effect.fsDelete p])
    else
      (some { action := "delete", path := some p, success := some false,
              error := some enoentErr }, fs, [])

/-- The `rename` case (ws-server.js:304-331): both paths must be present
and non-empty (`!data.oldPath || !data.newPath` throws), both must pass
`isPathSafe` (309-311) before any filesystem effect, then the
destination's parent is created and the rename performed (a missing
source throws after the mkdir). -/
def handleRename (q : Request) (fs : Fs) : HandlerOut :=
  match q.oldPath, q.newPath with
  | some o, some n =>
    if o = "" || n = "" then
      (some { action := "rename", oldPath := some o, newPath := some n, success := some false,
              error := some "oldPath and newPath are required" }, fs, [])
    else if !isPathSafe o || !isPathSafe n then
      (some { action := "rename", oldPath := some o, newPath := some n, success := some false,
              error := some "Invalid path" }, fs, [])
    else if (fs.files.lookup o).isSome || fs.dirs.contains o then
      (some { action := "rename", oldPath := some o, newPath := some n, success := some true },
        (match fs.files.lookup o with
         | some bytes => setFile (removeFile fs o) n bytes
         | none => fs),
        [Effect.fsMkdir (parentDir n), Effect.fsRename o n])
    else
      (some { action := "rename", oldPath := some o, newPath := some n, success := some false,
              error := some enoentErr }, fs, [Effect.fsMkdir (parentDir n)])
  | _, _ =>
    (some { action := "rename", oldPath := q.oldPath, newPath := q.newPath,
            success := some false, error := some "oldPath and newPath are required" }, fs, [])

/-- The `mkdir` case (ws-server.js:366-383): create the directory chain
(`recursive: true` tolerates existing directories); an absent or empty
path throws. -/
def handleMkdir (q : Request) (fs : Fs) : HandlerOut :=
  match q.path with
  | none => (some { action := "mkdir", success := some false, error := some pathTypeErr }, fs, [])
  | some p =>
    if p = "" then
      (some { action := "mkdir", path := some p, success := some false,
              error := some enoentErr }, fs, [])
    else
      (some { action := "mkdir", path := some p, success := some true },
        { fs with dirs := p :: fs.dirs }, [Effect.fsMkdir p])

/-- The allow-list of ws-server.js:388. -/
def gitCmdAllowList : List (List Char) :=
  ["status".data, "diff".data, "log".data, "branch".data, "add".data, "commit".data,
   "push".data, "pull".data, "fetch".data, "checkout".data, "stash".data]

/-- The token the allow-list is checked against: `command.split(' ')[0]`
(ws-server.js:389) — the text before the first space, with no filtering
of empty tokens (a leading space yields the empty token). -/
def gitFirstToken (command : String) : List Char :=
  (splitOnChar ' ' command.data).headD []

/-- The `git` case (ws-server.js:385-408): reject unless
`command.split(' ')[0]` is allow-listed, else run `git ` + the whole
command string through the shell and report `stdout`/`stderr`; an absent
command makes `command.split` throw. -/
def handleGit (env : Env) (q : Request) (fs : Fs) : HandlerOut :=
  match q.command with
  | none =>
    (some { action := "git", success := some false, error := some undefinedSplitErr }, fs, [])
  | some command =>
    if gitCmdAllowList.contains (gitFirstToken command) then
      match env.run ("git " ++ command) with
      | Except.ok (o, e) =>
        (some { action := "git", success := some true, stdout := some o, stderr := some e },
          fs, [Effect.spawn ("git " ++ command)])
      | Except.error msg =>
        (some { action := "git", success := some false, error := some msg },
          fs, [Effect.spawn ("git " ++ command)])
    else
      (some { action := "git", success := some false,
              error := some "Git command not allowed" }, fs, [])

/-- The non-empty lines of `stdout.trim().split('\n')`
(ws-server.js:413, 433). -/
def rawStatusLines (out : String) : List (List Char) :=
  (splitOnChar '\n' (trimL out.data)).filter (fun l => l ≠ [])

/-- The `gitStatus` case (ws-server.js:410-428): report the raw porcelain
lines and their count; the catch branch answers `success: true` with
`changes: 0` and `files: []`, masking the subprocess failure. -/
def handleGitStatus (env : Env) (fs : Fs) : HandlerOut :=
  match env.run "git status --porcelain" with
  | Except.ok (o, _) =>
    (some { action := "gitStatus", success := some true,
            changes := some (ChangesField.count (rawStatusLines o).length),
            files := some (FilesField.lines (rawStatusLines o)) },
      fs, [Effect.spawn "git status --porcelain"])
  | Except.error _ =>
    (some { action := "gitStatus", success := some true,
            changes := some (ChangesField.count 0),
            files := some (FilesField.lines []) },
      fs, [Effect.spawn "git status --porcelain"])

/-- The type derivation of ws-server.js:437-442: start from `modified`,
then `?` → untracked, else `A` → added, else `D` → deleted, else `R` →
renamed, else `M` → modified (the last clause is a no-op kept for
fidelity). -/
def changeType (status : List Char) : String :=
  if status.contains '?' then "untracked"
  else if status.contains 'A' then "added"
  else if status.contains 'D' then "deleted"
  else if status.contains 'R' then "renamed"
  else if status.contains 'M' then "modified"
  else "modified"

/-- One parsed line of `git-status` (ws-server.js:434-443):
`status = line.substring(0, 2)`, `file = line.substring(3)`. -/
def parseStatusLine (line : List Char) : Change :=
  { file := line.drop 3, status := line.take 2, type := changeType (line.take 2) }

/-- All parsed records of a porcelain output (ws-server.js:433-444). -/
def parseStatus (out : String) : List Change :=
  (rawStatusLines out).map parseStatusLine

/-- The `git-status` case (ws-server.js:430-459): parse the porcelain
lines into typed records; a subprocess failure answers `success: false`
with the error message and `changes: []`. -/
def handleGitStatusParsed (env : Env) (fs : Fs) : HandlerOut :=
  match env.run "git status --porcelain" with
  | Except.ok (o, _) =>
    (some { action := "git-status", success := some true,
            changes := some (ChangesField.records (parseStatus o)) },
      fs, [Effect.spawn "git status --porcelain"])
  | Except.error msg =>
    (some { action := "git-status", success := some false, error := some msg,
            changes := some (ChangesField.records []) },
      fs, [Effect.spawn "git status --porcelain"])

/-- The `git-diff` case (ws-server.js:461-483): requires a (truthy) `file`
field — which is never passed through `isPathSafe` — and runs
`git diff -- ` + `JSON.stringify(file)`. -/
def handleGitDiff (env : Env) (q : Request) (fs : Fs) : HandlerOut :=
  match q.file with
  | none =>
    (some { action := "git-diff", success := some false,
            error := some "File path is required for git-diff", diff := some "" }, fs, [])
  | some f =>
    if f = "" then
      (some { action := "git-diff", success := some false,
              error := some "File path is required for git-diff", diff := some "" }, fs, [])
    else
      match env.run ("git diff -- " ++ jsonQuote f) with
      | Except.ok (o, _) =>
        (some { action := "git-diff", success := some true, file := some f, diff := some o },
          fs, [Effect.spawn ("git diff -- " ++ jsonQuote f)])
      | Except.error msg =>
        (some { action := "git-diff", success := some false, error := some msg,
                diff := some "" }, fs, [Effect.spawn ("git diff -- " ++ jsonQuote f)])

/-- The `git-commit` case (ws-server.js:485-509): requires a (truthy)
message, stages everything with `git add -A`, then commits with
`git commit -m ` + `JSON.stringify(message)`. -/
def handleGitCommit (env : Env) (q : Request) (fs : Fs) : HandlerOut :=
  match q.message with
  | none =>
    (some { action := "git-commit", success := some false,
            error := some "Commit message is required" }, fs, [])
  | some m =>
    if m = "" then
      (some { action := "git-commit", success := some false,
              error := some "Commit message is required" }, fs, [])
    else
      match env.run "git add -A" with
      | Except.error msg =>
        (some { action := "git-commit", success := some false, error := some msg },
          fs, [Effect.spawn "git add -A"])
      | Except.ok _ =>
        match env.run ("git commit -m " ++ jsonQuote m) with
        | Except.ok (o, _) =>
          (some { action := "git-commit", success := some true, message := some m,
                  output := some o },
            fs, [Effect.spawn "git add -A", Effect.spawn ("git commit -m " ++ jsonQuote m)])
        | Except.error msg =>
          (some { action := "git-commit", success := some false, error := some msg },
            fs, [Effect.spawn "git add -A", Effect.spawn ("git commit -m " ++ jsonQuote m)])

/-- The `git-push` case (ws-server.js:511-527): report
`stdout || stderr`. -/
def handleGitPush (env : Env) (fs : Fs) : HandlerOut :=
  match env.run "git push" with
  | Except.ok (o, e) =>
    (some { action := "git-push", success := some true, output := some (jsOr o e) },
      fs, [Effect.spawn "git push"])
  | Except.error msg =>
    (some { action := "git-push", success := some false, error := some msg },
      fs, [Effect.spawn "git push"])

/-- The `git-pull-force` case (ws-server.js:529-552): fetch, resolve the
current branch, hard-reset to `origin/` + branch; any subprocess failure
answers `success: false`. -/
def handleGitPullForce (env : Env) (fs : Fs) : HandlerOut :=
  match env.run "git fetch origin" with
  | Except.error msg =>
    (some { action := "git-pull-force", success := some false, error := some msg },
      fs, [Effect.spawn "git fetch origin"])
  | Except.ok _ =>
    match env.run "git rev-parse --abbrev-ref HEAD" with
    | Except.error msg =>
      (some { action := "git-pull-force", success := some false, error := some msg },
        fs, [Effect.spawn "git fetch origin", Effect.spawn "git rev-parse --abbrev-ref HEAD"])
    | Except.ok (bout, _) =>
      match env.run ("git reset --hard origin/" ++ String.mk (trimL bout.data)) with
      | Except.ok (o, e) =>
        (some { action := "git-pull-force", success := some true,
                branch := some (String.mk (trimL bout.data)), output := some (jsOr o e) },
          fs, [Effect.spawn "git fetch origin", Effect.spawn "git rev-parse --abbrev-ref HEAD",
               Effect.spawn ("git reset --hard origin/" ++ String.mk (trimL bout.data))])
      | Except.error msg =>
        (some { action := "git-pull-force", success := some false, error := some msg },
          fs, [Effect.spawn "git fetch origin", Effect.spawn "git rev-parse --abbrev-ref HEAD",
               Effect.spawn ("git reset --hard origin/" ++ String.mk (trimL bout.data))])

/-- Match a literal at the head of the input, returning the rest. -/
def matchLit (lit l : List Char) : Option (List Char) :=
  if lit.isPrefixOf l then some (l.drop lit.length) else none

/-- Match `\s+` at the head of the input. -/
def matchWs1 (l : List Char) : Option (List Char) :=
  match l with
  | c :: rest => if isWsChar c then some (rest.dropWhile isWsChar) else none
  | [] => none

/-- Match `[^&;|]+` at the head of the input (greedy; the following
matcher in the only pattern using this is the literal `&&`, which the
class cannot consume, so greediness is exact). -/
def matchNotAmp (l : List Char) : Option (List Char) :=
  match l with
  | c :: rest =>
    if !(c = '&' || c = ';' || c = '|') then
      some (rest.dropWhile (fun x => !(x = '&' || x = ';' || x = '|')))
    else none
  | [] => none

/-- Match one of the alternative words followed by `\s+` (the regex
alternation with backtracking across alternatives). -/
def matchAltWs (words : List String) (l : List Char) : Option (List Char) :=
  match words with
  | [] => none
  | w :: ws =>
    match (matchLit w.data l).bind matchWs1 with
    | some r => some r
    | none => matchAltWs ws l

/-- The pattern `/^cd\s+\/workspaces\/[^&;|]+\s*&&\s*npm\s+(install|i)\s+/`
of ws-server.js:562. -/
def execPatInstall (l : List Char) : Bool :=
  (((((matchLit "cd".data l).bind matchWs1).bind
      (matchLit "/workspaces/".data)).bind matchNotAmp).bind
    (fun r => ((matchLit "&&".data (r.dropWhile isWsChar)).map
      (fun r2 => r2.dropWhile isWsChar)).bind
      (fun r3 => (matchLit "npm".data r3).bind
        (fun r4 => (matchWs1 r4).bind (matchAltWs ["install", "i"]))))).isSome

/-- The pattern `/^pm2\s+(restart|start|stop|reload)\s+/` of
ws-server.js:563. -/
def execPatPm2 (l : List Char) : Bool :=
  (((matchLit "pm2".data l).bind matchWs1).bind
    (matchAltWs ["restart", "start", "stop", "reload"])).isSome

/-- The pattern `/^pkill\s+-f\s+/` of ws-server.js:564. -/
def execPatPkill (l : List Char) : Bool :=
  ((((matchLit "pkill".data l).bind matchWs1).bind
    (matchLit "-f".data)).bind matchWs1).isSome

/-- The pattern `/^npm\s+run\s+/` of ws-server.js:565. -/
def execPatNpmRun (l : List Char) : Bool :=
  ((((matchLit "npm".data l).bind matchWs1).bind
    (matchLit "run".data)).bind matchWs1).isSome

/-- The check `allowedPatterns.some(pattern => pattern.test(execCommand))`
of ws-server.js:561-567. -/
def execAllowed (c : String) : Bool :=
  execPatInstall c.data || execPatPm2 c.data || execPatPkill c.data || execPatNpmRun c.data

/-- The `exec` case (ws-server.js:554-591): requires a (truthy) command,
rejects commands matching none of the fixed patterns before execution,
and surfaces failures and output in the Response (the catch branch echoes
`data.command`, absent when it was never supplied). -/
def handleExec (env : Env) (q : Request) (fs : Fs) : HandlerOut :=
  match q.command with
  | none =>
    (some { action := "exec", success := some false,
            error := some "Command is required" }, fs, [])
  | some c =>
    if c = "" then
      (some { action := "exec", success := some false, command := some c,
              error := some "Command is required" }, fs, [])
    else if execAllowed c then
      match env.run c with
      | Except.ok (o, e) =>
        (some { action := "exec", success := some true, command := some c,
                output := some (jsOr o e) }, fs, [Effect.spawn c])
      | Except.error msg =>
        (some { action := "exec", success := some false, command := some c,
                error := some msg }, fs, [Effect.spawn c])
    else
      (some { action := "exec", success := some false, command := some c,
              error := some "Command not allowed for security reasons" }, fs, [])

/-- The pong reply of ws-server.js:173: `{ action: 'pong' }` — no
`success` field, no payload. -/
def pongResponse : Response := { action := "pong" }

/-- The message-level path gate of ws-server.js:178:
`data.path && !isPathSafe(data.path)` — only the `path` field, and only
when it is present and non-empty (truthy). -/
def gateBlocked (q : Request) : Bool :=
  match q.path with
  | some p => !(p == "") && !isPathSafe p
  | none => false

/-- The message dispatcher (ws-server.js:165-595): `ping` answered first
(bypassing the gate), then the path gate, then the `switch` on `action`
in source order; an unknown action is logged only and produces no
Response (593-594). -/
def handleRequest (env : Env) (q : Request) (fs : Fs) : HandlerOut :=
  if q.action = "ping" then (some pongResponse, fs, [])
  else if gateBlocked q then
    (some { action := q.action, path := q.path, error := some "Invalid file path",
            success := some false }, fs, [])
  else if q.action = "read" then handleRead q fs
  else if q.action = "write" then handleWrite q fs
  else if q.action = "list" then handleList q fs
  else if q.action = "delete" then handleDelete q fs
  else if q.action = "rename" then handleRename q fs
  else if q.action = "create" then handleCreate q fs
  else if q.action = "mkdir" then handleMkdir q fs
  else if q.action = "git" then handleGit env q fs
  else if q.action = "gitStatus" then handleGitStatus env fs
  else if q.action = "git-status" then handleGitStatusParsed env fs
  else if q.action = "git-diff" then handleGitDiff env q fs
  else if q.action = "git-commit" then handleGitCommit env q fs
  else if q.action = "git-push" then handleGitPush env fs
  else if q.action = "git-pull-force" then handleGitPullForce env fs
  else if q.action = "exec" then handleExec env q fs
  else (none, fs, [])

/-- The outer message layer (ws-server.js:165-599): a message whose JSON
decoding throws (carried here as `Except.error` with the parse error's
message) is answered by the catch branch
`{ action: 'error', error, success: false }`; decoded requests go to the
dispatcher. -/
def handleMessage (env : Env) (m : Except String Request) (fs : Fs) : HandlerOut :=
  match m with
  | Except.error emsg =>
    (some { action := "error", error := some emsg, success := some false }, fs, [])
  | Except.ok q => handleRequest env q fs

/-- The decoded payload of a JWT the `jsonwebtoken` library accepts
(ws-server.js:69-74): `userId`, optional `username`, `repoId`,
`repoName`. -/
structure JwtPayload where
  userId : String
  username : Option String := none
  repoId : String
  repoName : String
deriving DecidableEq, Repr

/-- Identity claims bound to a connection at authentication time
(ws-server.js:142-145). -/
structure AuthData where
  userId : String
  username : String
  repoId : String
  repoName : String
deriving DecidableEq, Repr

/-- The `authenticateConnection` function (ws-server.js:53-79): extract
the token from the query parameter (`none` models its absence), verify it
— `jwt.verify` with RS256 (ws-server.js:42-50) is an external
cryptographic call, passed in as the oracle `jwtVerify`, which returns
the decoded payload exactly when verification succeeds — and build the
claims, `username` defaulting to `'unknown'`. -/
def authenticateConnection (jwtVerify : String → Option JwtPayload)
    (token : Option String) : Option AuthData :=
  match token with
  | none => none
  | some t =>
    match jwtVerify t with
    | none => none
    | some p =>
      some { userId := p.userId, username := p.username.getD "unknown",
             repoId := p.repoId, repoName := p.repoName }

/-- The outcome of a connection attempt: closed at handshake with a close
code and reason, or established with bound identity claims. -/
inductive ConnOutcome where
  | closed (code : Nat) (reason : String)
  | established (auth : AuthData)
deriving DecidableEq, Repr

/-- The connection handler's authentication step (ws-server.js:133-139):
a failed authentication closes the socket with `ws.close(1008,
'Unauthorized')` and returns before the message handler is registered. -/
def acceptConnection (jwtVerify : String → Option JwtPayload)
    (token : Option String) : ConnOutcome :=
  match authenticateConnection jwtVerify token with
  | none => ConnOutcome.closed 1008 "Unauthorized"
  | some a => ConnOutcome.established a

/-- Process a sequence of inbound messages on an established connection,
collecting the emitted Responses and effects. -/
def runMsgs (env : Env) : Fs → List (Except String Request) → List Response × List Effect
  | _, [] => ([], [])
  | fs, m :: rest =>
    let x := handleMessage env m fs
    let r := runMsgs env x.2.1 rest
    (x.1.toList ++ r.1, x.2.2 ++ r.2)

/-- Everything sent on a connection during its life: nothing at all on a
connection closed at handshake (the message handler is never registered),
otherwise the per-message processing. -/
def runConn (env : Env) (fs : Fs) (o : ConnOutcome) (msgs : List (Except String Request)) :
    List Response × List Effect :=
  match o with
  | ConnOutcome.closed _ _ => ([], [])
  | ConnOutcome.established _ => runMsgs env fs msgs

/-- Rejection predicate written from the amended claim's words, to be
compared with the validator itself: empty, absolute (leading slash or
drive letter after backslash normalization), traversal segment, or the
`.git`/`node_modules` directory as exact name or leading prefix. -/
def pathRejectedSpec (s : String) : Prop :=
  s = "" ∨ ['/'].isPrefixOf (normSlashesL s.data) = true
    ∨ driveLetterL (normSlashesL s.data) = true
    ∨ containsSubL ['.', '.', '/'] (normSlashesL s.data) = true
    ∨ containsSubL ['/', '.', '.'] (normSlashesL s.data) = true
    ∨ normSlashesL s.data = ['.', '.']
    ∨ (".git/".data).isPrefixOf (normSlashesL s.data) = true
    ∨ normSlashesL s.data = ".git".data
    ∨ ("node_modules/".data).isPrefixOf (normSlashesL s.data) = true
    ∨ normSlashesL s.data = "node_modules".data

/-- Claim C2 (amended): the Path Safety Validator rejects a candidate path
exactly when it is empty, is absolute under Unix or Windows conventions
(leading `/` or drive-letter prefix, after normalizing backslashes),
contains a parent-directory traversal segment (`../`, `/..`, or is
exactly `..`), or is exactly `.git` or `node_modules` or starts with
`.git/` or `node_modules/`; all other relative paths are accepted
verbatim — in particular paths with `.git/` or `node_modules/` only in
non-leading position are accepted. -/
theorem c2_validator_contract (s : String) : isPathSafe s = false ↔ pathRejectedSpec s := by
  unfold isPathSafe pathRejectedSpec
  by_cases h1 : s = ""
  · simp [h1]
  rw [if_neg h1]
  by_cases h2 : ['/'].isPrefixOf (normSlashesL s.data) = true
  · simp [h2]
  rw [if_neg h2]
  by_cases h3 : driveLetterL (normSlashesL s.data) = true
  · simp [h3]
  rw [if_neg h3]
  by_cases h4 : containsSubL ['.', '.', '/'] (normSlashesL s.data) = true
  · simp [h4]
  rw [if_neg h4]
  by_cases h5 : containsSubL ['/', '.', '.'] (normSlashesL s.data) = true
  · simp [h5]
  rw [if_neg h5]
  by_cases h6 : normSlashesL s.data = ['.', '.']
  · simp [h6]
  rw [if_neg h6]
  by_cases h7 : (".git/".data).isPrefixOf (normSlashesL s.data) = true
  · simp [h7]
  rw [if_neg h7]
  by_cases h8 : normSlashesL s.data = ".git".data
  · simp [h8]
  rw [if_neg h8]
  by_cases h9 : ("node_modules/".data).isPrefixOf (normSlashesL s.data) = true
  · simp [h9]
  rw [if_neg h9]
  by_cases h10 : normSlashesL s.data = "node_modules".data
  · simp [h10]
  rw [if_neg h10]
  simp [h1, h2, h3, h4, h5, h6, h7, h8, h9, h10]

/-- Claim C2 counterexample: a path with `node_modules/` (and likewise
`.git/`) in non-leading position is accepted by the validator, although
the claim as stated says every path containing `node_modules/...` or
`.git/...` anywhere is rejected. -/
theorem c2_counterexample :
    isPathSafe "src/node_modules/x" = true ∧ isPathSafe "a/.git/b" = true := by
  constructor <;> rfl

/-- Claim C2 witness: evaluating the contract at a concrete rejected path. -/
theorem c2_witness : isPathSafe "../secret" = false :=
  (c2_validator_contract "../secret").mpr
    (Or.inr (Or.inr (Or.inr (Or.inl (by rfl)))))

/-- Claim C10: the validator accepts paths whose first segment merely
begins with a protected directory name without being it (`.gitignore`,
`.github/workflows/ci.yml`, `node_modules2`), while the exact names and
leading prefixes `.git`, `.git/...`, `node_modules`, `node_modules/...`
are rejected. -/
theorem c10_protected_name_boundary :
    isPathSafe ".gitignore" = true ∧ isPathSafe ".github/workflows/ci.yml" = true
      ∧ isPathSafe ".git" = false ∧ isPathSafe ".git/config" = false
      ∧ isPathSafe "node_modules2" = true ∧ isPathSafe "node_modules" = false
      ∧ isPathSafe "node_modules/x" = false := by
  refine ⟨rfl, rfl, rfl, rfl, rfl, rfl, rfl⟩

/-- A concrete environment whose subprocesses succeed with empty output,
for witnesses and counterexamples. -/
def env0 : Env := { run := fun _ => Except.ok ("", "") }

/-- A concrete empty filesystem, for witnesses and counterexamples. -/
def fs0 : Fs := {}

/-- Claim C1 (amended): for every inbound Request other than `ping`, a
present non-empty `path` field that fails the Path Safety Validator is
rejected by the message-level gate before any handler runs: the Response
is `{ action, path, error: 'Invalid file path', success: false }`, the
filesystem is unchanged and the effect trace is empty.  The `rename`
handler additionally validates both `oldPath` and `newPath` before any
filesystem effect.  Only the `path` field is gated, however: `git-diff`'s
`file` field is never validated, and `ping` bypasses validation entirely
(answered with the bare pong, performing no filesystem effect). -/
theorem c1_path_gate (env : Env) (q : Request) (fs : Fs) :
    (∀ p, q.action ≠ "ping" → q.path = some p → p ≠ "" → isPathSafe p = false →
      handleRequest env q fs
        = (some { action := q.action, path := some p, error := some "Invalid file path",
                  success := some false }, fs, []))
    ∧ (∀ o n, (isPathSafe o = false ∨ isPathSafe n = false) → o ≠ "" → n ≠ "" →
      handleRequest env { action := "rename", oldPath := some o, newPath := some n } fs
        = (some { action := "rename", oldPath := some o, newPath := some n,
                  success := some false, error := some "Invalid path" }, fs, []))
    ∧ (q.action = "ping" → handleRequest env q fs = (some pongResponse, fs, [])) := by
  refine ⟨?_, ?_, ?_⟩
  · intro p hping hpath hne hunsafe
    have hg : gateBlocked q = true := by
      simp [gateBlocked, hpath, hne, hunsafe]
    unfold handleRequest
    rw [if_neg hping, if_pos hg, hpath]
  · intro o n hunsafe ho hn
    have hd : handleRequest env { action := "rename", oldPath := some o, newPath := some n } fs
        = handleRename { action := "rename", oldPath := some o, newPath := some n } fs := rfl
    rw [hd]
    unfold handleRename
    dsimp only
    rw [if_neg (by simp [ho, hn])]
    rw [if_pos (by rcases hunsafe with h | h <;> simp [h])]
  · intro hping
    unfold handleRequest
    rw [if_pos hping]

/-- Claim C1 counterexample: an unsafe `git-diff` `file` field is never
validated — the subprocess is spawned with it and the Response reports
`success: true`. -/
theorem c1_counterexample :
    isPathSafe "a/../b" = false
      ∧ handleRequest env0 { action := "git-diff", file := some "a/../b" } fs0
          = (some { action := "git-diff", success := some true, file := some "a/../b",
                    diff := some "" },
              fs0, [Effect.spawn ("git diff -- " ++ jsonQuote "a/../b")]) :=
  ⟨rfl, rfl⟩

/-- Claim C1 witness: a concrete unsafe `read` request is rejected by the
gate with no filesystem effect. -/
theorem c1_witness :
    handleRequest env0 { action := "read", path := some "../x" } fs0
      = (some { action := "read", path := some "../x", error := some "Invalid file path",
                success := some false }, fs0, []) :=
  (c1_path_gate env0 { action := "read", path := some "../x" } fs0).1 "../x"
    (by decide) rfl (by decide) rfl

/-- Claim C3: every connection whose handshake carries no token, or a
token that fails signature verification (the RS256 `jwt.verify` oracle
returns no payload), is closed with the fixed policy-violation close code
1008 and reason `Unauthorized`; no protocol-level Response is ever sent
on it and no operation handler runs (no responses, no effects). -/
theorem c3_auth_failure_closes (jwtVerify : String → Option JwtPayload)
    (token : Option String)
    (h : token = none ∨ ∃ t, token = some t ∧ jwtVerify t = none) :
    acceptConnection jwtVerify token = ConnOutcome.closed 1008 "Unauthorized"
      ∧ ∀ env fs msgs, runConn env fs (acceptConnection jwtVerify token) msgs = ([], []) := by
  have hc : acceptConnection jwtVerify token = ConnOutcome.closed 1008 "Unauthorized" := by
    rcases h with h | ⟨t, ht, hv⟩
    · rw [h]; rfl
    · rw [ht]
      simp [acceptConnection, authenticateConnection, hv]
  exact ⟨hc, fun env fs msgs => by rw [hc]; rfl⟩

/-- Claim C3 witness: a concrete token the verifier rejects is closed with
the policy-violation code and produces no responses and no effects. -/
theorem c3_witness :
    acceptConnection (fun _ => none) (some "tampered-token")
        = ConnOutcome.closed 1008 "Unauthorized"
      ∧ runConn env0 fs0 (acceptConnection (fun _ => none) (some "tampered-token"))
          [Except.ok { action := "ping" }] = ([], []) := by
  have h := c3_auth_failure_closes (fun _ => none) (some "tampered-token")
    (Or.inr ⟨"tampered-token", rfl, rfl⟩)
  exact ⟨h.1, h.2 env0 fs0 [Except.ok { action := "ping" }]⟩

theorem bool_ne_true {b : Bool} (h : b = false) : ¬(b = true) := by
  rw [h]; simp

/-- Claim C4 (amended): a generic `git` Request is rejected — Response
`success: false` with the error `Git command not allowed` and no
subprocess executed — exactly when the text before the first space of its
command string (`command.split(' ')[0]`, with no whitespace collapsing)
is not on the fixed allow-list; otherwise the whole command string is
passed through to the shell unchecked. -/
theorem c4_git_allowlist (env : Env) (fs : Fs) (cmd : String) :
    (gitCmdAllowList.contains (gitFirstToken cmd) = false →
      handleRequest env { action := "git", command := some cmd } fs
        = (some { action := "git", success := some false,
                  error := some "Git command not allowed" }, fs, []))
    ∧ (gitCmdAllowList.contains (gitFirstToken cmd) = true →
      (handleRequest env { action := "git", command := some cmd } fs).2.2
        = [Effect.spawn ("git " ++ cmd)]) := by
  have hd : handleRequest env { action := "git", command := some cmd } fs
      = handleGit env { action := "git", command := some cmd } fs := rfl
  constructor
  · intro h
    rw [hd]
    unfold handleGit
    dsimp only
    rw [if_neg (by rw [h]; simp)]
  · intro h
    rw [hd]
    unfold handleGit
    dsimp only
    rw [if_pos h]
    cases env.run ("git " ++ cmd) with
    | ok oe => cases oe; rfl
    | error msg => rfl

/-- Claim C4 counterexample: the command `" status"` has `status` — an
allow-listed word — as its first whitespace-delimited token, but the code
checks `command.split(' ')[0]`, which is the empty token, so the request
is rejected and no subprocess runs. -/
theorem c4_counterexample :
    ((splitOnChar ' ' (" status".data)).filter (fun t => t ≠ [])).headD [] = "status".data
      ∧ gitCmdAllowList.contains ("status".data) = true
      ∧ gitFirstToken " status" = []
      ∧ handleRequest env0 { action := "git", command := some " status" } fs0
          = (some { action := "git", success := some false,
                    error := some "Git command not allowed" }, fs0, []) :=
  ⟨rfl, rfl, rfl, rfl⟩

/-- Claim C4 witness: the spec's scenario — `git` with command `rm -rf /`
is rejected with no subprocess executed. -/
theorem c4_witness :
    handleRequest env0 { action := "git", command := some "rm -rf /" } fs0
      = (some { action := "git", success := some false,
                error := some "Git command not allowed" }, fs0, []) :=
  (c4_git_allowlist env0 fs0 "rm -rf /").1 (by rfl)

/-- A handler outcome that reports failure at the Response level while the
connection stays open: some Response with `success: false` and an error
string, and no connection-closing effect in the trace. -/
def failsOpenResp (x : HandlerOut) : Prop :=
  ∃ r, x.1 = some r ∧ r.success = some false ∧ r.error.isSome = true
    ∧ Effect.closeConn ∉ x.2.2

theorem handleGit_error (env : Env) (fs : Fs) (cmd msg : String)
    (hcmd : gitCmdAllowList.contains (gitFirstToken cmd) = true)
    (h : env.run ("git " ++ cmd) = Except.error msg) :
    handleGit env { action := "git", command := some cmd } fs
      = (some { action := "git", success := some false, error := some msg },
          fs, [Effect.spawn ("git " ++ cmd)]) := by
  unfold handleGit
  dsimp only
  rw [if_pos hcmd, h]

theorem handleGitStatusParsed_error (env : Env) (fs : Fs) (msg : String)
    (h : env.run "git status --porcelain" = Except.error msg) :
    handleGitStatusParsed env fs
      = (some { action := "git-status", success := some false, error := some msg,
                changes := some (ChangesField.records []) },
          fs, [Effect.spawn "git status --porcelain"]) := by
  unfold handleGitStatusParsed
  rw [h]

theorem handleGitStatus_masks (env : Env) (fs : Fs) (msg : String)
    (h : env.run "git status --porcelain" = Except.error msg) :
    handleGitStatus env fs
      = (some { action := "gitStatus", success := some true,
                changes := some (ChangesField.count 0),
                files := some (FilesField.lines []) },
          fs, [Effect.spawn "git status --porcelain"]) := by
  unfold handleGitStatus
  rw [h]

theorem handleGitDiff_error (env : Env) (fs : Fs) (f msg : String) (hf : f ≠ "")
    (h : env.run ("git diff -- " ++ jsonQuote f) = Except.error msg) :
    handleGitDiff env { action := "git-diff", file := some f } fs
      = (some { action := "git-diff", success := some false, error := some msg,
                diff := some "" },
          fs, [Effect.spawn ("git diff -- " ++ jsonQuote f)]) := by
  unfold handleGitDiff
  dsimp only
  rw [if_neg hf, h]

theorem handleGitCommit_error (env : Env) (fs : Fs) (m msg : String) (hm : m ≠ "")
    (h : ∀ c, env.run c = Except.error msg) :
    handleGitCommit env { action := "git-commit", message := some m } fs
      = (some { action := "git-commit", success := some false, error := some msg },
          fs, [Effect.spawn "git add -A"]) := by
  unfold handleGitCommit
  dsimp only
  rw [if_neg hm, h]

theorem handleGitPush_error (env : Env) (fs : Fs) (msg : String)
    (h : env.run "git push" = Except.error msg) :
    handleGitPush env fs
      = (some { action := "git-push", success := some false, error := some msg },
          fs, [Effect.spawn "git push"]) := by
  unfold handleGitPush
  rw [h]

theorem handleGitPullForce_error (env : Env) (fs : Fs) (msg : String)
    (h : ∀ c, env.run c = Except.error msg) :
    handleGitPullForce env fs
      = (some { action := "git-pull-force", success := some false, error := some msg },
          fs, [Effect.spawn "git fetch origin"]) := by
  unfold handleGitPullForce
  rw [h]

/-- Claim C5 (amended): when the underlying subprocess fails, the handlers
`git` (with an allow-listed command), `git-status`, `git-diff`,
`git-commit`, `git-push` and `git-pull-force` each emit a Response with
`success: false` and an error string, with the connection remaining open
(no connection-closing effect) — but `gitStatus` does not: its catch
branch masks the failure, answering `success: true` with `changes: 0` and
`files: []` and no error string. -/
theorem c5_git_subprocess_failures (env : Env) (msg : String) (fs : Fs)
    (henv : ∀ c, env.run c = Except.error msg) :
    (∀ cmd, gitCmdAllowList.contains (gitFirstToken cmd) = true →
      failsOpenResp (handleRequest env { action := "git", command := some cmd } fs))
    ∧ failsOpenResp (handleRequest env { action := "git-status" } fs)
    ∧ (∀ f, f ≠ "" →
      failsOpenResp (handleRequest env { action := "git-diff", file := some f } fs))
    ∧ (∀ m, m ≠ "" →
      failsOpenResp (handleRequest env { action := "git-commit", message := some m } fs))
    ∧ failsOpenResp (handleRequest env { action := "git-push" } fs)
    ∧ failsOpenResp (handleRequest env { action := "git-pull-force" } fs)
    ∧ handleRequest env { action := "gitStatus" } fs
        = (some { action := "gitStatus", success := some true,
                  changes := some (ChangesField.count 0),
                  files := some (FilesField.lines []) },
            fs, [Effect.spawn "git status --porcelain"]) := by
  refine ⟨?_, ?_, ?_, ?_, ?_, ?_, ?_⟩
  · intro cmd hcmd
    have hd : handleRequest env { action := "git", command := some cmd } fs
        = handleGit env { action := "git", command := some cmd } fs := rfl
    rw [hd, handleGit_error env fs cmd msg hcmd (henv _)]
    exact ⟨_, rfl, rfl, rfl, by simp⟩
  · have hd : handleRequest env { action := "git-status" } fs
        = handleGitStatusParsed env fs := rfl
    rw [hd, handleGitStatusParsed_error env fs msg (henv _)]
    exact ⟨_, rfl, rfl, rfl, by simp⟩
  · intro f hf
    have hd : handleRequest env { action := "git-diff", file := some f } fs
        = handleGitDiff env { action := "git-diff", file := some f } fs := rfl
    rw [hd, handleGitDiff_error env fs f msg hf (henv _)]
    exact ⟨_, rfl, rfl, rfl, by simp⟩
  · intro m hm
    have hd : handleRequest env { action := "git-commit", message := some m } fs
        = handleGitCommit env { action := "git-commit", message := some m } fs := rfl
    rw [hd, handleGitCommit_error env fs m msg hm henv]
    exact ⟨_, rfl, rfl, rfl, by simp⟩
  · have hd : handleRequest env { action := "git-push" } fs = handleGitPush env fs := rfl
    rw [hd, handleGitPush_error env fs msg (henv _)]
    exact ⟨_, rfl, rfl, rfl, by simp⟩
  · have hd : handleRequest env { action := "git-pull-force" } fs
        = handleGitPullForce env fs := rfl
    rw [hd, handleGitPullForce_error env fs msg henv]
    exact ⟨_, rfl, rfl, rfl, by simp⟩
  · have hd : handleRequest env { action := "gitStatus" } fs = handleGitStatus env fs := rfl
    rw [hd, handleGitStatus_masks env fs msg (henv _)]

/-- A concrete environment whose subprocesses always fail, for witnesses
and counterexamples. -/
def envFail : Env := { run := fun _ => Except.error "boom" }

/-- Claim C5 counterexample: on subprocess failure the `gitStatus` handler
answers `success: true` with no error string, contradicting the claim
that every git handler reports `success: false` with an error. -/
theorem c5_counterexample :
    (handleRequest envFail { action := "gitStatus" } fs0).1
        = some { action := "gitStatus", success := some true,
                 changes := some (ChangesField.count 0),
                 files := some (FilesField.lines []) }
      ∧ ∀ r, (handleRequest envFail { action := "gitStatus" } fs0).1 = some r →
          r.success = some true ∧ r.error = none := by
  refine ⟨rfl, ?_⟩
  intro r h
  have : r = { action := "gitStatus", success := some true,
               changes := some (ChangesField.count 0),
               files := some (FilesField.lines []) } := by
    have h1 : (handleRequest envFail { action := "gitStatus" } fs0).1
        = some { action := "gitStatus", success := some true,
                 changes := some (ChangesField.count 0),
                 files := some (FilesField.lines []) } := rfl
    rw [h1] at h
    exact (Option.some.injEq _ _).mp h.symm
  rw [this]
  exact ⟨rfl, rfl⟩

/-- Claim C5 witness: the failing handlers at the always-failing
environment. -/
theorem c5_witness :
    failsOpenResp (handleRequest envFail { action := "git", command := some "status" } fs0)
    ∧ failsOpenResp (handleRequest envFail { action := "git-status" } fs0)
    ∧ failsOpenResp (handleRequest envFail { action := "git-diff", file := some "a.txt" } fs0)
    ∧ failsOpenResp (handleRequest envFail { action := "git-commit", message := some "m" } fs0)
    ∧ failsOpenResp (handleRequest envFail { action := "git-push" } fs0)
    ∧ failsOpenResp (handleRequest envFail { action := "git-pull-force" } fs0) := by
  have h := c5_git_subprocess_failures envFail "boom" fs0 (fun _ => rfl)
  exact ⟨h.1 "status" (by rfl), h.2.1, h.2.2.1 "a.txt" (by decide),
    h.2.2.2.1 "m" (by decide), h.2.2.2.2.1, h.2.2.2.2.2.1⟩

theorem handleGitStatusParsed_ok (env : Env) (fs : Fs) (out eout : String)
    (h : env.run "git status --porcelain" = Except.ok (out, eout)) :
    handleGitStatusParsed env fs
      = (some { action := "git-status", success := some true,
                changes := some (ChangesField.records (parseStatus out)) },
          fs, [Effect.spawn "git status --porcelain"]) := by
  unfold handleGitStatusParsed
  rw [h]

theorem handleGitStatus_ok (env : Env) (fs : Fs) (out eout : String)
    (h : env.run "git status --porcelain" = Except.ok (out, eout)) :
    handleGitStatus env fs
      = (some { action := "gitStatus", success := some true,
                changes := some (ChangesField.count (rawStatusLines out).length),
                files := some (FilesField.lines (rawStatusLines out)) },
          fs, [Effect.spawn "git status --porcelain"]) := by
  unfold handleGitStatus
  rw [h]

/-- Claim C6 (amended): only the `git-status` action parses each non-empty
line of the trimmed porcelain output into a typed change record — status
code from the first two characters, file name from index 3, type derived
as `untracked` when the code contains `?`, else `added` when it contains
`A`, else `deleted` when it contains `D`, else `renamed` when it contains
`R`, with `modified` otherwise; the `gitStatus` action instead returns
the raw non-empty lines and their count, with no typed records. -/
theorem c6_porcelain_parsing (env : Env) (fs : Fs) (out eout : String)
    (h : env.run "git status --porcelain" = Except.ok (out, eout)) :
    ((handleRequest env { action := "git-status" } fs).1
        = some { action := "git-status", success := some true,
                 changes := some (ChangesField.records (parseStatus out)) })
    ∧ ((handleRequest env { action := "gitStatus" } fs).1
        = some { action := "gitStatus", success := some true,
                 changes := some (ChangesField.count (rawStatusLines out).length),
                 files := some (FilesField.lines (rawStatusLines out)) })
    ∧ parseStatus out = (rawStatusLines out).map parseStatusLine
    ∧ (∀ line : List Char,
        (parseStatusLine line).status = line.take 2
        ∧ (parseStatusLine line).file = line.drop 3
        ∧ ((line.take 2).contains '?' = true → (parseStatusLine line).type = "untracked")
        ∧ ((line.take 2).contains '?' = false → (line.take 2).contains 'A' = true →
            (parseStatusLine line).type = "added")
        ∧ ((line.take 2).contains '?' = false → (line.take 2).contains 'A' = false →
            (line.take 2).contains 'D' = true → (parseStatusLine line).type = "deleted")
        ∧ ((line.take 2).contains '?' = false → (line.take 2).contains 'A' = false →
            (line.take 2).contains 'D' = false → (line.take 2).contains 'R' = true →
            (parseStatusLine line).type = "renamed")
        ∧ ((line.take 2).contains '?' = false → (line.take 2).contains 'A' = false →
            (line.take 2).contains 'D' = false → (line.take 2).contains 'R' = false →
            (parseStatusLine line).type = "modified")) := by
  refine ⟨?_, ?_, rfl, ?_⟩
  · rw [show handleRequest env { action := "git-status" } fs
        = handleGitStatusParsed env fs from rfl, handleGitStatusParsed_ok env fs out eout h]
  · rw [show handleRequest env { action := "gitStatus" } fs
        = handleGitStatus env fs from rfl, handleGitStatus_ok env fs out eout h]
  · intro line
    refine ⟨rfl, rfl, ?_, ?_, ?_, ?_, ?_⟩
    · intro h1
      show changeType (line.take 2) = "untracked"
      unfold changeType
      rw [if_pos h1]
    · intro h1 h2
      show changeType (line.take 2) = "added"
      unfold changeType
      rw [if_neg (bool_ne_true h1), if_pos h2]
    · intro h1 h2 h3
      show changeType (line.take 2) = "deleted"
      unfold changeType
      rw [if_neg (bool_ne_true h1), if_neg (bool_ne_true h2), if_pos h3]
    · intro h1 h2 h3 h4
      show changeType (line.take 2) = "renamed"
      unfold changeType
      rw [if_neg (bool_ne_true h1), if_neg (bool_ne_true h2), if_neg (bool_ne_true h3),
        if_pos h4]
    · intro h1 h2 h3 h4
      show changeType (line.take 2) = "modified"
      unfold changeType
      rw [if_neg (bool_ne_true h1), if_neg (bool_ne_true h2), if_neg (bool_ne_true h3),
        if_neg (bool_ne_true h4), ite_self]

/-- A concrete environment answering only the porcelain status command,
for witnesses and counterexamples. -/
def envStatus : Env :=
  { run := fun c =>
      if c = "git status --porcelain" then Except.ok ("?? new.txt\n M mod.txt", "")
      else Except.error "unexpected" }

/-- Claim C6 counterexample: the `gitStatus` Response to concrete
porcelain output carries a numeric count and the raw lines — a value of
the `count` shape, never the `records` shape — so `gitStatus` does not
parse typed change records as the claim states. -/
theorem c6_counterexample :
    (handleRequest envStatus { action := "gitStatus" } fs0).1
        = some { action := "gitStatus", success := some true,
                 changes := some (ChangesField.count 2),
                 files := some (FilesField.lines ["?? new.txt".data, " M mod.txt".data]) }
      ∧ ∀ cs, ChangesField.count 2 ≠ ChangesField.records cs :=
  ⟨rfl, fun _ h => ChangesField.noConfusion h⟩

/-- Claim C6 witness: concrete porcelain output parsed by `git-status`
into typed records, and the raw-line behavior of `gitStatus`. -/
theorem c6_witness :
    ((handleRequest envStatus { action := "git-status" } fs0).1
        = some { action := "git-status", success := some true,
                 changes := some (ChangesField.records
                   (parseStatus "?? new.txt\n M mod.txt")) })
      ∧ (parseStatusLine ("?? new.txt".data)).type = "untracked"
      ∧ (parseStatusLine (" M mod.txt".data)).type = "modified" := by
  have h := c6_porcelain_parsing envStatus fs0 "?? new.txt\n M mod.txt" "" rfl
  exact ⟨h.1, ((h.2.2.2 ("?? new.txt".data)).2.2.1 rfl),
    ((h.2.2.2 (" M mod.txt".data)).2.2.2.2.2.2 rfl rfl rfl rfl)⟩

/-- A handler outcome whose Response (when present) always carries a
`success` field, and carries an error string whenever `success` is
`false`. -/
def handlerShapeOk (x : HandlerOut) : Prop :=
  ∀ r, x.1 = some r →
    r.success.isSome = true ∧ (r.success = some false → r.error.isSome = true)

theorem shapeOk_handleRead (q : Request) (fs : Fs) : handlerShapeOk (handleRead q fs) := by
  intro r h
  unfold handleRead at h
  try dsimp only at h
  repeat' split at h
  all_goals (try simp only [Option.some.injEq] at h)
  all_goals (try subst h)
  all_goals simp_all

theorem shapeOk_handleWrite (q : Request) (fs : Fs) : handlerShapeOk (handleWrite q fs) := by
  intro r h
  unfold handleWrite at h
  try dsimp only at h
  repeat' split at h
  all_goals (try simp only [Option.some.injEq] at h)
  all_goals (try subst h)
  all_goals simp_all

theorem shapeOk_handleCreate (q : Request) (fs : Fs) : handlerShapeOk (handleCreate q fs) := by
  intro r h
  unfold handleCreate at h
  try dsimp only at h
  repeat' split at h
  all_goals (try simp only [Option.some.injEq] at h)
  all_goals (try subst h)
  all_goals simp_all

theorem shapeOk_handleList (q : Request) (fs : Fs) : handlerShapeOk (handleList q fs) := by
  intro r h
  unfold handleList at h
  try dsimp only at h
  repeat' split at h
  all_goals (try simp only [Option.some.injEq] at h)
  all_goals (try subst h)
  all_goals simp_all

theorem shapeOk_handleDelete (q : Request) (fs : Fs) : handlerShapeOk (handleDelete q fs) := by
  intro r h
  unfold handleDelete at h
  try dsimp only at h
  repeat' split at h
  all_goals (try simp only [Option.some.injEq] at h)
  all_goals (try subst h)
  all_goals simp_all

theorem shapeOk_handleRename (q : Request) (fs : Fs) : handlerShapeOk (handleRename q fs) := by
  intro r h
  unfold handleRename at h
  try dsimp only at h
  repeat' split at h
  all_goals (try simp only [Option.some.injEq] at h)
  all_goals (try subst h)
  all_goals simp_all

theorem shapeOk_handleMkdir (q : Request) (fs : Fs) : handlerShapeOk (handleMkdir q fs) := by
  intro r h
  unfold handleMkdir at h
  try dsimp only at h
  repeat' split at h
  all_goals (try simp only [Option.some.injEq] at h)
  all_goals (try subst h)
  all_goals simp_all

theorem shapeOk_handleGit (env : Env) (q : Request) (fs : Fs) : handlerShapeOk (handleGit env q fs) := by
  intro r h
  unfold handleGit at h
  try dsimp only at h
  repeat' split at h
  all_goals (try simp only [Option.some.injEq] at h)
  all_goals (try subst h)
  all_goals simp_all

theorem shapeOk_handleGitStatus (env : Env) (fs : Fs) : handlerShapeOk (handleGitStatus env fs) := by
  intro r h
  unfold handleGitStatus at h
  try dsimp only at h
  repeat' split at h
  all_goals (try simp only [Option.some.injEq] at h)
  all_goals (try subst h)
  all_goals simp_all

theorem shapeOk_handleGitStatusParsed (env : Env) (fs : Fs) : handlerShapeOk (handleGitStatusParsed env fs) := by
  intro r h
  unfold handleGitStatusParsed at h
  try dsimp only at h
  repeat' split at h
  all_goals (try simp only [Option.some.injEq] at h)
  all_goals (try subst h)
  all_goals simp_all

theorem shapeOk_handleGitDiff (env : Env) (q : Request) (fs : Fs) : handlerShapeOk (handleGitDiff env q fs) := by
  intro r h
  unfold handleGitDiff at h
  try dsimp only at h
  repeat' split at h
  all_goals (try simp only [Option.some.injEq] at h)
  all_goals (try subst h)
  all_goals simp_all

theorem shapeOk_handleGitCommit (env : Env) (q : Request) (fs : Fs) : handlerShapeOk (handleGitCommit env q fs) := by
  intro r h
  unfold handleGitCommit at h
  try dsimp only at h
  repeat' split at h
  all_goals (try simp only [Option.some.injEq] at h)
  all_goals (try subst h)
  all_goals simp_all

theorem shapeOk_handleGitPush (env : Env) (fs : Fs) : handlerShapeOk (handleGitPush env fs) := by
  intro r h
  unfold handleGitPush at h
  try dsimp only at h
  repeat' split at h
  all_goals (try simp only [Option.some.injEq] at h)
  all_goals (try subst h)
  all_goals simp_all

theorem shapeOk_handleGitPullForce (env : Env) (fs : Fs) : handlerShapeOk (handleGitPullForce env fs) := by
  intro r h
  unfold handleGitPullForce at h
  try dsimp only at h
  repeat' split at h
  all_goals (try simp only [Option.some.injEq] at h)
  all_goals (try subst h)
  all_goals simp_all

theorem shapeOk_handleExec (env : Env) (q : Request) (fs : Fs) : handlerShapeOk (handleExec env q fs) := by
  intro r h
  unfold handleExec at h
  try dsimp only at h
  repeat' split at h
  all_goals (try simp only [Option.some.injEq] at h)
  all_goals (try subst h)
  all_goals simp_all

/-- Every Response the dispatcher emits either carries a `success` field
(with an error string whenever it is `false`) or is the bare pong reply. -/
theorem respShape_handleRequest (env : Env) (q : Request) (fs : Fs) :
    ∀ r, (handleRequest env q fs).1 = some r →
      (r.success.isSome = true ∨ r = pongResponse)
      ∧ (r.success = some false → r.error.isSome = true) := by
  intro r h
  unfold handleRequest at h
  by_cases hb0 : q.action = "ping"
  · rw [if_pos hb0] at h
    try dsimp only at h
    simp only [Option.some.injEq] at h
    subst h
    simp [pongResponse]
  · rw [if_neg hb0] at h
    by_cases hbg : gateBlocked q = true
    · rw [if_pos hbg] at h
      try dsimp only at h
      simp only [Option.some.injEq] at h
      subst h
      simp
    · rw [if_neg hbg] at h
      by_cases hb1 : q.action = "read"
      · rw [if_pos hb1] at h
        have hs := shapeOk_handleRead q fs r h
        exact ⟨Or.inl hs.1, hs.2⟩
      · rw [if_neg hb1] at h
        by_cases hb2 : q.action = "write"
        · rw [if_pos hb2] at h
          have hs := shapeOk_handleWrite q fs r h
          exact ⟨Or.inl hs.1, hs.2⟩
        · rw [if_neg hb2] at h
          by_cases hb3 : q.action = "list"
          · rw [if_pos hb3] at h
            have hs := shapeOk_handleList q fs r h
            exact ⟨Or.inl hs.1, hs.2⟩
          · rw [if_neg hb3] at h
            by_cases hb4 : q.action = "delete"
            · rw [if_pos hb4] at h
              have hs := shapeOk_handleDelete q fs r h
              exact ⟨Or.inl hs.1, hs.2⟩
            · rw [if_neg hb4] at h
              by_cases hb5 : q.action = "rename"
              · rw [if_pos hb5] at h
                have hs := shapeOk_handleRename q fs r h
                exact ⟨Or.inl hs.1, hs.2⟩
              · rw [if_neg hb5] at h
                by_cases hb6 : q.action = "create"
                · rw [if_pos hb6] at h
                  have hs := shapeOk_handleCreate q fs r h
                  exact ⟨Or.inl hs.1, hs.2⟩
                · rw [if_neg hb6] at h
                  by_cases hb7 : q.action = "mkdir"
                  · rw [if_pos hb7] at h
                    have hs := shapeOk_handleMkdir q fs r h
                    exact ⟨Or.inl hs.1, hs.2⟩
                  · rw [if_neg hb7] at h
                    by_cases hb8 : q.action = "git"
                    · rw [if_pos hb8] at h
                      have hs := shapeOk_handleGit env q fs r h
                      exact ⟨Or.inl hs.1, hs.2⟩
                    · rw [if_neg hb8] at h
                      by_cases hb9 : q.action = "gitStatus"
                      · rw [if_pos hb9] at h
                        have hs := shapeOk_handleGitStatus env fs r h
                        exact ⟨Or.inl hs.1, hs.2⟩
                      · rw [if_neg hb9] at h
                        by_cases hb10 : q.action = "git-status"
                        · rw [if_pos hb10] at h
                          have hs := shapeOk_handleGitStatusParsed env fs r h
                          exact ⟨Or.inl hs.1, hs.2⟩
                        · rw [if_neg hb10] at h
                          by_cases hb11 : q.action = "git-diff"
                          · rw [if_pos hb11] at h
                            have hs := shapeOk_handleGitDiff env q fs r h
                            exact ⟨Or.inl hs.1, hs.2⟩
                          · rw [if_neg hb11] at h
                            by_cases hb12 : q.action = "git-commit"
                            · rw [if_pos hb12] at h
                              have hs := shapeOk_handleGitCommit env q fs r h
                              exact ⟨Or.inl hs.1, hs.2⟩
                            · rw [if_neg hb12] at h
                              by_cases hb13 : q.action = "git-push"
                              · rw [if_pos hb13] at h
                                have hs := shapeOk_handleGitPush env fs r h
                                exact ⟨Or.inl hs.1, hs.2⟩
                              · rw [if_neg hb13] at h
                                by_cases hb14 : q.action = "git-pull-force"
                                · rw [if_pos hb14] at h
                                  have hs := shapeOk_handleGitPullForce env fs r h
                                  exact ⟨Or.inl hs.1, hs.2⟩
                                · rw [if_neg hb14] at h
                                  by_cases hb15 : q.action = "exec"
                                  · rw [if_pos hb15] at h
                                    have hs := shapeOk_handleExec env q fs r h
                                    exact ⟨Or.inl hs.1, hs.2⟩
                                  · rw [if_neg hb15] at h
                                    simp at h

/-- Claim C7 (amended): every outbound protocol message carries an
`action` field (a structural field of the `Response` type); every message
except the bare pong reply to `ping` carries a boolean `success` field;
and every failure Response (`success: false`) carries an error string —
including the generic error answer to a malformed inbound message.  The
pong reply itself, and the write/create/delete/mkdir/rename success
replies, carry no result payload beyond the echoed identifying fields. -/
theorem c7_response_shape (env : Env) (m : Except String Request) (fs : Fs) :
    (∀ r, (handleMessage env m fs).1 = some r →
      (r.success.isSome = true ∨ r = pongResponse)
      ∧ (r.success = some false → r.error.isSome = true))
    ∧ handleMessage env (Except.ok { action := "ping" }) fs = (some pongResponse, fs, []) := by
  refine ⟨?_, rfl⟩
  intro r h
  cases m with
  | error emsg =>
    unfold handleMessage at h
    try dsimp only at h
    simp only [Option.some.injEq] at h
    subst h
    simp
  | ok q => exact respShape_handleRequest env q fs r h

/-- Claim C7 counterexample: the reply to `ping` is `{ action: 'pong' }` —
it carries no `success` field and neither results nor an error string —
and a successful `mkdir` reply carries no result payload either, only the
echoed path. -/
theorem c7_counterexample :
    (handleRequest env0 { action := "ping" } fs0).1 = some pongResponse
      ∧ pongResponse.success = none
      ∧ pongResponse.error = none
      ∧ (handleRequest env0 { action := "mkdir", path := some "d" } fs0).1
          = some { action := "mkdir", path := some "d", success := some true } :=
  ⟨rfl, rfl, rfl, rfl⟩

/-- Claim C7 witness: the generic error answer to a malformed inbound
message carries `success: false` and an error string. -/
theorem c7_witness :
    ({ action := "error", error := some "Unexpected token", success := some false }
        : Response).error.isSome = true :=
  ((c7_response_shape env0 (Except.error "Unexpected token") fs0).1
    { action := "error", error := some "Unexpected token", success := some false } rfl).2 rfl

theorem lookup_setFile (fs : Fs) (p : String) (b : List Nat) :
    (setFile fs p b).files.lookup p = some b := by
  simp [setFile, List.lookup]

/-- Claim C8: for every content `C` (a byte list) and safe path `p`,
writing base64(`C`) to `p` with `encoding: "base64"` and then reading `p`
with `encoding: "base64"` returns base64(`C`) unchanged, with the read
Response echoing the chosen encoding. -/
theorem gateBlocked_of_safe (q : Request) (p : String) (hpath : q.path = some p)
    (hp : isPathSafe p = true) : gateBlocked q = false := by
  simp [gateBlocked, hpath, hp]

theorem dispatch_read (env : Env) (q : Request) (fs : Fs) (ha : q.action = "read")
    (hg : gateBlocked q = false) : handleRequest env q fs = handleRead q fs := by
  unfold handleRequest
  rw [if_neg (by rw [ha]; decide), if_neg (bool_ne_true hg), if_pos ha]

theorem dispatch_write (env : Env) (q : Request) (fs : Fs) (ha : q.action = "write")
    (hg : gateBlocked q = false) : handleRequest env q fs = handleWrite q fs := by
  unfold handleRequest
  rw [if_neg (by rw [ha]; decide), if_neg (bool_ne_true hg), if_neg (by rw [ha]; decide),
    if_pos ha]

/-- Claim C8: for every content `C` (a byte list) and safe path `p`,
writing base64(`C`) to `p` with `encoding: "base64"` and then reading `p`
with `encoding: "base64"` returns base64(`C`) unchanged, with the read
Response echoing the chosen encoding. -/
theorem c8_base64_roundtrip (env : Env) (fs : Fs) (p : String) (C : List Nat)
    (hp : isPathSafe p = true) (hC : ∀ b ∈ C, b < 256) :
    (handleRequest env { action := "read", path := some p, encoding := some "base64" }
        (handleRequest env
          { action := "write", path := some p, content := some (encB64 C),
            encoding := some "base64" } fs).2.1).1
      = some { action := "read", path := some p, content := some (encB64 C),
               encoding := some "base64", success := some true } := by
  have hne : p ≠ "" := by
    intro he
    rw [he] at hp
    exact absurd hp (by decide)
  have hw : (handleRequest env
      { action := "write", path := some p, content := some (encB64 C),
        encoding := some "base64" } fs).2.1 = setFile fs p C := by
    rw [dispatch_write env _ fs rfl (gateBlocked_of_safe _ p rfl hp)]
    unfold handleWrite
    dsimp only
    rw [if_neg hne]
    simp [decB64_encB64 C hC]
  rw [hw, dispatch_read env _ (setFile fs p C) rfl (gateBlocked_of_safe _ p rfl hp)]
  unfold handleRead
  dsimp only
  rw [lookup_setFile]
  rfl

/-- Claim C8 witness: a concrete byte list round-trips through a base64
write followed by a base64 read. -/
theorem c8_witness :
    (handleRequest env0
        { action := "read", path := some "notes/a.txt", encoding := some "base64" }
        (handleRequest env0
          { action := "write", path := some "notes/a.txt",
            content := some (encB64 [72, 105, 255]), encoding := some "base64" } fs0).2.1).1
      = some { action := "read", path := some "notes/a.txt",
               content := some (encB64 [72, 105, 255]), encoding := some "base64",
               success := some true } :=
  c8_base64_roundtrip env0 fs0 "notes/a.txt" [72, 105, 255] rfl (by decide)

theorem listTreeL_skipped (ts : List FsTree) (basePath : String) :
    ∀ e ∈ listTreeL ts basePath, skipEntry e.name = false := by
  induction ts, basePath using listTreeL.induct with
  | case1 basePath =>
    intro e he
    simp [listTreeL] at he
  | case2 n rest basePath ih =>
    intro e he
    rw [listTreeL] at he
    rcases List.mem_append.mp he with h | h
    · cases hs : skipEntry n with
      | true => rw [hs] at h; simp at h
      | false =>
        rw [hs] at h
        simp at h
        subst h
        exact hs
    · exact ih e h
  | case3 n cs rest basePath ih1 ih2 =>
    intro e he
    rw [listTreeL] at he
    rcases List.mem_append.mp he with h | h
    · cases hs : skipEntry n with
      | true => rw [hs] at h; simp at h
      | false =>
        rw [hs] at h
        simp only [if_false, Bool.false_eq_true, List.mem_cons] at h
        rcases h with h | h
        · subst h
          exact hs
        · exact ih1 e h
    · exact ih2 e h

theorem dispatch_list (env : Env) (q : Request) (fs : Fs) (ha : q.action = "list")
    (hg : gateBlocked q = false) : handleRequest env q fs = handleList q fs := by
  unfold handleRequest
  rw [if_neg (by rw [ha]; decide), if_neg (bool_ne_true hg), if_neg (by rw [ha]; decide),
    if_neg (by rw [ha]; decide), if_pos ha]

/-- Claim C9 (amended): recursive directory listing skips every
dot-prefixed entry except those named `.astro` or `.devcontainer`
(whether file or directory — the code exempts these two by name only),
always skips `node_modules`, `dist` and `.git`, expands subdirectories
depth-first with each subdirectory's own entry immediately before its
children in directory-entry order, and on a listing failure (missing
directory) produces an empty sequence while the outer `list` Request
still receives `success: true`. -/
theorem c9_directory_listing :
    (∀ ts basePath e, e ∈ listTreeL ts basePath → skipEntry e.name = false)
    ∧ (∀ n cs rest basePath, skipEntry n = false →
        listTreeL (FsTree.dir n cs :: rest) basePath
          = { name := n, path := joinPath basePath n, isDirectory := true }
              :: (listTreeL cs (joinPath basePath n) ++ listTreeL rest basePath))
    ∧ (skipEntry "node_modules" = true ∧ skipEntry "dist" = true ∧ skipEntry ".git" = true)
    ∧ (skipEntry ".astro" = false ∧ skipEntry ".devcontainer" = false)
    ∧ (∀ nm, ['.'].isPrefixOf nm.data = true → nm ≠ ".astro" → nm ≠ ".devcontainer" →
        skipEntry nm = true)
    ∧ (∀ env fs p, isPathSafe p = true → lookupTree fs.tree (pathSegments p) = none →
        (handleRequest env { action := "list", path := some p } fs).1
          = some { action := "list", path := some p, files := some (FilesField.entries []),
                   success := some true }) := by
  refine ⟨listTreeL_skipped, ?_, ⟨rfl, rfl, rfl⟩, ⟨rfl, rfl⟩, ?_, ?_⟩
  · intro n cs rest basePath h
    rw [listTreeL, if_neg (bool_ne_true h)]
    simp
  · intro nm h1 h2 h3
    simp [skipEntry, h1, h2, h3]
  · intro env fs p hp hnone
    rw [dispatch_list env _ fs rfl (gateBlocked_of_safe _ p rfl hp)]
    unfold handleList
    dsimp only
    rw [hnone]

/-- Claim C9 counterexample: a dot-prefixed entry that is a plain file
named `.astro` is listed (the code exempts the two names whether file or
directory), although the claim says only the directory names `.astro` and
`.devcontainer` escape the dot-skip. -/
theorem c9_counterexample :
    ['.'].isPrefixOf ".astro".data = true
      ∧ listTreeL [FsTree.file ".astro"] ""
          = [{ name := ".astro", path := ".astro", isDirectory := false }] := by
  refine ⟨rfl, ?_⟩
  simp only [listTreeL]
  rw [show skipEntry ".astro" = false from rfl]
  simp [joinPath]

/-- Claim C9 witness: concrete instances — a surviving entry, a
depth-first expansion, a skipped dot-file, and a missing-directory
listing that still succeeds with an empty sequence. -/
theorem c9_witness :
    skipEntry (Entry.mk "src" "src" true).name = false
    ∧ listTreeL [FsTree.dir "src" [FsTree.file "a.js"]] ""
        = { name := "src", path := "src", isDirectory := true }
            :: (listTreeL [FsTree.file "a.js"] (joinPath "" "src") ++ listTreeL [] "")
    ∧ skipEntry ".env" = true
    ∧ (handleRequest env0 { action := "list", path := some "missing" } fs0).1
        = some { action := "list", path := some "missing",
                 files := some (FilesField.entries []), success := some true } := by
  refine ⟨?_, ?_, ?_, ?_⟩
  · exact listTreeL_skipped [FsTree.dir "src" [FsTree.file "a.js"]] ""
      (Entry.mk "src" "src" true)
      (by rw [c9_directory_listing.2.1 "src" [FsTree.file "a.js"] [] "" rfl]; simp [joinPath])
  · exact c9_directory_listing.2.1 "src" [FsTree.file "a.js"] [] "" rfl
  · exact c9_directory_listing.2.2.2.2.1 ".env" rfl (by decide) (by decide)
  · exact c9_directory_listing.2.2.2.2.2 env0 fs0 "missing" rfl rfl

end WsServer
